import Mathlib

/-!
# Z3CHCInterface: the Horn-clause session of libsolidity/formal

A shallow embedding of `libsolidity/formal/Z3CHCInterface.cpp`.

The class wraps two collaborators whose code is outside the file:

* the expression model `Z3Interface` (translation of expressions, the maps
  `m_constants` and `m_functions`);
* the z3 fixedpoint engine `z3::fixedpoint`.

Both are represented by their observable state (`Z3Interface`, `Fixedpoint`)
and by a record `External` holding what they answer.  C++ exceptions are
values of `Exception`; every member function of the class is a function from a
session state to an outcome and the session state it leaves behind, so that
the effects performed before a throw stay visible.
-/

namespace Solidity

/-! ## Data model -/

/-- Modelled from the spec: the sort handle of the expression model (`Sort`, declared in a
header outside the file).  The spec calls it an opaque handle to a value's type. -/
structure SMTSort where
  id : Nat
  deriving DecidableEq, Repr

/-- The C++ `SortPointer` is a shared pointer and may be null: `none` is the null pointer. -/
abbrev SortPointer := Option SMTSort

/-- The C++ `Expression` of the expression model: a name, arguments and a sort.
The member functions below read only `name`. -/
inductive Expression where
  | mk (name : String) (arguments : List Expression) (sort : SortPointer)

/-- Field `name` of an `Expression`. -/
def Expression.name : Expression → String
  | .mk n _ _ => n

/-- A function declaration of the engine (`z3::func_decl`), identified by its name and
the sorts of its signature. -/
structure FuncDecl where
  name : String
  domain : List SMTSort
  range : SMTSort
  deriving DecidableEq, Repr

/-- Native expressions of the engine (`z3::expr`): constants created by
`context::constant`, applications of a named declaration, and the quantifier built by
`z3::forall(variables, body)`. -/
inductive Z3Expr where
  | constant (name : String) (sort : SMTSort)
  | app (decl : String) (args : List Z3Expr)
  | forall_ (bound : List Z3Expr) (body : Z3Expr)

/-- The exceptions that can cross the functions of the file: `z3::exception` (the only
one caught by `query`), the `InternalCompilerError` thrown by `solAssert`, and the
`std::out_of_range` thrown by `std::map::at`. -/
inductive Exception where
  | z3_exception (msg : String)
  | InternalCompilerError (msg : String)
  | out_of_range
  deriving DecidableEq, Repr

/-- Answer of the engine's query operation (`z3::check_result`). -/
inductive check_result where
  | unsat | sat | unknown
  deriving DecidableEq, Repr

/-- Modelled from the spec: the classification `CheckResult` (declared in a header outside
the file); the spec lists SATISFIABLE, UNSATISFIABLE, UNKNOWN and ERROR. -/
inductive CheckResult where
  | SATISFIABLE | UNSATISFIABLE | UNKNOWN | ERROR
  deriving DecidableEq, Repr

/-- Value of a process-global z3 parameter, as passed to `z3::set_param`. -/
inductive ParamValue where
  | bool (b : Bool)
  | int (i : Int)
  deriving DecidableEq, Repr

/-- Observable state of the expression model `Z3Interface`: the two `std::map`s returned by
`constants()` and `functions()`, as association lists in iteration order. -/
structure Z3Interface where
  m_constants : List (String × Z3Expr)
  m_functions : List (String × FuncDecl)

/-- Observable state of the engine `z3::fixedpoint m_solver`: the parameters installed
with `set`, what has been handed to `register_relation`, `add_rule` and `query`, each in
call order, and how many times the answer has been asked for with `get_answer`. -/
structure Fixedpoint where
  params : List (String × Bool)
  relations : List FuncDecl
  rules : List (Z3Expr × String)
  queries : List Z3Expr
  answers : Nat

/-- What the collaborators outside the file answer.

* `resourceLimit` is the constant `Z3Interface::resourceLimit`.
* `toZ3Expr` is `Z3Interface::toZ3Expr`; it may throw.
* `set`, `add_rule`: `some msg` means the z3 wrapper's error check throws a
  `z3::exception` with that message after the call.
* `query`, `get_answer`: the value, or the message of the `z3::exception` raised.  The
  engine's state counts the `get_answer` calls made so far, so two calls in a row are
  free to differ: one may return and the next raise.
* `reason_unknown` and `register_relation` have no error check in the z3 wrapper and do
  not throw.
* `get_rules_along_trace` is the C function `Z3_fixedpoint_get_rules_along_trace`, called
  directly and without an error check: it returns a vector and raises no exception.
* `expr_to_string`, `Z3_ast_vector_to_string`: the printers used for console output. -/
structure External where
  resourceLimit : Int
  toZ3Expr : Z3Interface → Expression → Except Exception Z3Expr
  set : List (String × Bool) → Option String
  add_rule : Fixedpoint → Z3Expr → String → Option String
  query : Fixedpoint → Z3Expr → Except String check_result
  get_answer : Fixedpoint → Except String Z3Expr
  reason_unknown : Fixedpoint → String
  get_rules_along_trace : Fixedpoint → List Z3Expr
  expr_to_string : Z3Expr → String
  Z3_ast_vector_to_string : List Z3Expr → String

/-- State seen by a `Z3CHCInterface` object: its members `m_z3Interface` and `m_solver`,
together with the two pieces of process-wide state the file writes to, the global z3
parameters (`z3::set_param`) and the console (`cout`, one entry per streamed item). -/
structure Z3CHCInterface where
  globalParams : List (String × ParamValue)
  m_z3Interface : Z3Interface
  m_solver : Fixedpoint
  cout : List String

/-! ## Collaborator operations -/

/-- The global `z3::set_param(key, value)`: the newest binding of a key is the one found
by `List.lookup`. -/
def set_param (g : List (String × ParamValue)) (key : String) (value : ParamValue) :
    List (String × ParamValue) :=
  (key, value) :: g

/-- The `z3::params::set(key, value)` on a parameter set under construction. -/
def params_set (p : List (String × Bool)) (key : String) (value : Bool) :
    List (String × Bool) :=
  (key, value) :: p

/-- The `z3::fixedpoint::set(p)`: the bindings of `p` override the engine's. -/
def Fixedpoint.set (fp : Fixedpoint) (p : List (String × Bool)) : Fixedpoint :=
  { fp with params := p ++ fp.params }

/-- The `z3::fixedpoint::register_relation(f)`. -/
def Fixedpoint.register_relation (fp : Fixedpoint) (f : FuncDecl) : Fixedpoint :=
  { fp with relations := fp.relations ++ [f] }

/-- The `z3::fixedpoint::add_rule(rule, name)`: the clause is handed to the engine. -/
def Fixedpoint.add_rule (fp : Fixedpoint) (rule : Z3Expr) (name : String) : Fixedpoint :=
  { fp with rules := fp.rules ++ [(rule, name)] }

/-- The `z3::fixedpoint::query(q)`: the goal is handed to the engine. -/
def Fixedpoint.query (fp : Fixedpoint) (q : Z3Expr) : Fixedpoint :=
  { fp with queries := fp.queries ++ [q] }

/-- The `z3::fixedpoint::get_answer()`: one more request for the answer. -/
def Fixedpoint.get_answer (fp : Fixedpoint) : Fixedpoint :=
  { fp with answers := fp.answers + 1 }

/-- A freshly constructed engine. -/
def Fixedpoint.fresh : Fixedpoint :=
  { params := [], relations := [], rules := [], queries := [], answers := 0 }

/-- Modelled from the spec: the state of a freshly constructed `Z3Interface` (its
constructor is outside the file); nothing is declared in a new session. -/
def Z3Interface.fresh : Z3Interface :=
  { m_constants := [], m_functions := [] }

/-- Insertion into a `std::map` kept as an association list ordered by key: an existing
binding of the key is replaced, a new key is put at its place in the order.  Keys are
compared character by character, as `std::string` does. -/
def mapInsert {α : Type} (k : String) (v : α) : List (String × α) → List (String × α)
  | [] => [(k, v)]
  | (k', v') :: rest =>
    if k.toList < k'.toList then (k, v) :: (k', v') :: rest
    else if k = k' then (k, v) :: rest
    else (k', v') :: mapInsert k v rest

/-- Modelled from the spec: `Z3Interface::declareVariable(name, sort)` (outside the file).
The spec says it registers `name` in the session's variable registry, that a variable's
identity is its name, and that a declared variable is visible to the later collection of
free variables: the registry binds `name` to the constant of that name and sort. -/
def Z3Interface.declareVariable (z : Z3Interface) (name : String) (sort : SMTSort) :
    Z3Interface :=
  { z with m_constants := mapInsert name (Z3Expr.constant name sort) z.m_constants }

/-- Append one streamed item to the console. -/
def Z3CHCInterface.print (s : Z3CHCInterface) (text : String) : Z3CHCInterface :=
  { s with cout := s.cout ++ [text] }

/-! ## The member functions of `Z3CHCInterface` -/

/-- The parameter set `p` built by the constructor (lines 39-50). -/
def spacerParams : List (String × Bool) :=
  let p : List (String × Bool) := []
  let p := params_set p "fp.spacer.q3.use_qgen" true
  let p := params_set p "fp.spacer.mbqi" false
  let p := params_set p "fp.spacer.ground_pobs" false
  let p := params_set p "fp.xform.slice" false
  let p := params_set p "fp.xform.inline_linear" false
  let p := params_set p "fp.xform.inline_eager" false
  p

/-- The constructor `Z3CHCInterface::Z3CHCInterface()`, run in a process whose global z3
parameters are `globalParams` and whose console holds `cout`.  (Named `ctor` because the
class name itself cannot be reused inside its own namespace.) -/
def Z3CHCInterface.ctor (ext : External) (globalParams : List (String × ParamValue))
    (cout : List String) : Except Exception Z3CHCInterface :=
  let g := set_param globalParams "rewriter.pull_cheap_ite" (ParamValue.bool true)
  let g := set_param g "rlimit" (ParamValue.int ext.resourceLimit)
  let p := spacerParams
  match ext.set p with
  | some msg => .error (.z3_exception msg)
  | none =>
    .ok { globalParams := g
          m_z3Interface := Z3Interface.fresh
          m_solver := Fixedpoint.fresh.set p
          cout := cout }

/-- The member `Z3CHCInterface::declareVariable(_name, _sort)`. -/
def Z3CHCInterface.declareVariable (s : Z3CHCInterface) (_name : String) (_sort : SortPointer) :
    Except Exception Unit × Z3CHCInterface :=
  match _sort with
  | none => (.error (.InternalCompilerError ""), s)
  | some sort =>
    (.ok (), { s with m_z3Interface := s.m_z3Interface.declareVariable _name sort })

/-- The member `Z3CHCInterface::registerRelation(_expr)`: `functions().at(name)` throws
`std::out_of_range` when the name has no binding. -/
def Z3CHCInterface.registerRelation (s : Z3CHCInterface) (_expr : Expression) :
    Except Exception Unit × Z3CHCInterface :=
  match s.m_z3Interface.m_functions.lookup _expr.name with
  | none => (.error .out_of_range, s)
  | some f => (.ok (), { s with m_solver := s.m_solver.register_relation f })

/-- The member `Z3CHCInterface::addRule(_expr, _name)`. -/
def Z3CHCInterface.addRule (ext : External) (s : Z3CHCInterface) (_expr : Expression)
    (_name : String) : Except Exception Unit × Z3CHCInterface :=
  match ext.toZ3Expr s.m_z3Interface _expr with
  | .error e => (.error e, s)
  | .ok rule =>
    let s := s.print (ext.expr_to_string rule ++ "\n\n")
    if s.m_z3Interface.m_constants.isEmpty then
      let s' := { s with m_solver := s.m_solver.add_rule rule _name }
      match ext.add_rule s.m_solver rule _name with
      | some msg => (.error (.z3_exception msg), s')
      | none => (.ok (), s')
    else
      let variables_ := s.m_z3Interface.m_constants.map (fun var => var.2)
      let boundRule := Z3Expr.forall_ variables_ rule
      let s' := { s with m_solver := s.m_solver.add_rule boundRule _name }
      match ext.add_rule s.m_solver boundRule _name with
      | some msg => (.error (.z3_exception msg), s')
      | none => (.ok (), s')

/-- The member `Z3CHCInterface::parseCounterexample(_cex)`: the trace is fetched and
printed, and the model returned is the empty vector declared on line 129 (the decoding
loop of lines 130-143 is commented out).  Nothing in it throws. -/
def Z3CHCInterface.parseCounterexample (ext : External) (s : Z3CHCInterface) (_cex : Z3Expr) :
    List String × Z3CHCInterface :=
  let trace := ext.get_rules_along_trace s.m_solver
  let s := s.print (ext.Z3_ast_vector_to_string trace ++ "\n")
  let model : List String := []
  (model, s)

/-- The handler `catch (z3::exception const& _e)` of `query` (lines 115-120), followed by
the return on line 122. -/
def Z3CHCInterface.queryCatch (s : Z3CHCInterface) (msg : String) :
    Except Exception (CheckResult × List String) × Z3CHCInterface :=
  let s := s.print (msg ++ "\n")
  let result := CheckResult.ERROR
  let values : List String := []
  (.ok (result, values), s)

/-- The member `Z3CHCInterface::query(_expr)`.  Everything from the translation on runs
inside the `try` block; a `z3::exception` goes to the handler, any other exception leaves
the function.  In the sat case `get_answer` is called twice, for the printing of line 93
and for the extraction of line 95, and each call is asked of the engine on its own. -/
def Z3CHCInterface.query (ext : External) (s : Z3CHCInterface) (_expr : Expression) :
    Except Exception (CheckResult × List String) × Z3CHCInterface :=
  let values : List String := []
  match ext.toZ3Expr s.m_z3Interface _expr with
  | .error (.z3_exception msg) => s.queryCatch msg
  | .error e => (.error e, s)
  | .ok z3Expr =>
    let answer := ext.query s.m_solver z3Expr
    let s := { s with m_solver := s.m_solver.query z3Expr }
    match answer with
    | .error msg => s.queryCatch msg
    | .ok .sat =>
      let s := s.print "SAT\n"
      let shown := ext.get_answer s.m_solver
      let s := { s with m_solver := s.m_solver.get_answer }
      match shown with
      | .error msg => s.queryCatch msg
      | .ok shown =>
        let s := s.print (ext.expr_to_string shown ++ "\n")
        let result := CheckResult.SATISFIABLE
        let cex := ext.get_answer s.m_solver
        let s := { s with m_solver := s.m_solver.get_answer }
        match cex with
        | .error msg => s.queryCatch msg
        | .ok cex =>
          let (values, s) := Z3CHCInterface.parseCounterexample ext s cex
          (.ok (result, values), s)
    | .ok .unsat =>
      let s := s.print "UNSAT\n"
      let shown := ext.get_answer s.m_solver
      let s := { s with m_solver := s.m_solver.get_answer }
      match shown with
      | .error msg => s.queryCatch msg
      | .ok shown =>
        let s := s.print (ext.expr_to_string shown ++ "\n")
        let result := CheckResult.UNSATISFIABLE
        (.ok (result, values), s)
    | .ok .unknown =>
      let s := s.print "UNKNOWN\n"
      let s := s.print (ext.reason_unknown s.m_solver ++ "\n")
      let result := CheckResult.UNKNOWN
      (.ok (result, values), s)

/-! ## Sequences of calls -/

/-- A call of one of the four public operations. -/
inductive Call where
  | declareVariable (name : String) (sort : SortPointer)
  | registerRelation (expr : Expression)
  | addRule (expr : Expression) (name : String)
  | query (expr : Expression)

/-- The session state left behind by one call; the caller may go on using the session
whether the call returned or threw. -/
def Call.run (ext : External) (s : Z3CHCInterface) : Call → Z3CHCInterface
  | .declareVariable name sort => (s.declareVariable name sort).2
  | .registerRelation expr => (s.registerRelation expr).2
  | .addRule expr name => (Z3CHCInterface.addRule ext s expr name).2
  | .query expr => (Z3CHCInterface.query ext s expr).2

/-- The session state after a sequence of calls, first call first. -/
def runCalls (ext : External) (s : Z3CHCInterface) (calls : List Call) : Z3CHCInterface :=
  calls.foldl (Call.run ext) s

/-! ## The decoding described by the specification -/

/-- Top-level conjuncts of a native expression: the arguments of an application of
`and` (the expressions for which `is_and()` holds), nothing for any other expression. -/
def Z3Expr.conjuncts : Z3Expr → List Z3Expr
  | .app "and" args => args
  | _ => []

/-- Name of the declaration at the head of an application (`decl().name().str()`). -/
def Z3Expr.declName : Z3Expr → String
  | .constant name _ => name
  | .app decl _ => decl
  | .forall_ _ _ => ""

/-- Arguments of an application (`arg(0)`, ..., `arg(num_args() - 1)`). -/
def Z3Expr.arguments : Z3Expr → List Z3Expr
  | .app _ args => args
  | _ => []

/-- The decoding of section 4.5 of the specification, written from its words: scan the
top-level conjuncts in order, keep those whose predicate name starts with the marker
"summary" (the test `name.find("summary", 0) != 0` of the disabled loop), and flatten the
string representations of their arguments. -/
def specSummaryDecoding (to_string : Z3Expr → String) (cex : Z3Expr) : List String :=
  (cex.conjuncts.filter
      (fun predicate => "summary".toList.isPrefixOf predicate.declName.toList)).flatMap
    (fun predicate => predicate.arguments.map to_string)

/-! ## Concrete collaborators, used to evaluate the definitions -/

/-- A printer for native expressions: the head symbol. -/
def headSymbol : Z3Expr → String
  | .constant name _ => name
  | .app decl _ => decl
  | .forall_ _ _ => "forall"

/-- A translator that maps an expression to the application of its name to no arguments
and rejects the empty name with a failed assertion. -/
def sampleTranslate (_z : Z3Interface) (e : Expression) : Except Exception Z3Expr :=
  if e.name = "" then .error (.InternalCompilerError "") else .ok (.app e.name [])

/-- An engine that gives the same answers in every state: `answer` to a query,
`shown` to `get_answer`, `trace` to the retrieval of the rules along the trace. -/
def sampleExternal (answer : Except String check_result) (shown : Except String Z3Expr)
    (trace : List Z3Expr) : External :=
  { resourceLimit := 12500000
    toZ3Expr := sampleTranslate
    set := fun _ => none
    add_rule := fun _ _ _ => none
    query := fun _ _ => answer
    get_answer := fun _ => shown
    reason_unknown := fun _ => "canceled"
    get_rules_along_trace := fun _ => trace
    expr_to_string := headSymbol
    Z3_ast_vector_to_string := fun v => String.intercalate " " (v.map headSymbol) }

/-- A session with nothing declared, registered or asserted. -/
def emptySession : Z3CHCInterface :=
  { globalParams := []
    m_z3Interface := Z3Interface.fresh
    m_solver := Fixedpoint.fresh
    cout := [] }

/-- A session whose registry holds the variables `x` and `y` and whose function table
holds the relation `R`. -/
def sampleSession : Z3CHCInterface :=
  { globalParams := []
    m_z3Interface :=
      { m_constants := [("x", .constant "x" ⟨0⟩), ("y", .constant "y" ⟨1⟩)]
        m_functions := [("R", { name := "R", domain := [⟨0⟩], range := ⟨1⟩ })] }
    m_solver := Fixedpoint.fresh
    cout := [] }

/-- The goal expression named `R`. -/
def sampleGoal : Expression := .mk "R" [] (some ⟨1⟩)

/-- An answer of the engine with one conjunct marked "summary" and one that is not. -/
def sampleAnswer : Z3Expr :=
  .app "and" [.app "summary_f" [.app "1" []], .app "block_f" [.app "2" []]]

/-- An engine that answers sat, hands out `sampleAnswer` the first time the answer is asked
for (the printing of line 93) and raises the second time (the extraction of line 95). -/
def secondAnswerRaises : External :=
  { sampleExternal (.ok .sat) (.ok sampleAnswer) [sampleAnswer] with
    get_answer := fun fp =>
      if fp.answers = 0 then .ok sampleAnswer else .error "no answer" }

/-! ## Query: classification and the engine's exceptions -/

/-- C2: when the engine's query operation raises on the translated goal, `query` returns
the pair (ERROR, empty sequence); the exception does not leave the call. -/
theorem query_engine_raises (ext : External) (s : Z3CHCInterface) (e : Expression)
    (z : Z3Expr) (msg : String)
    (hz : ext.toZ3Expr s.m_z3Interface e = .ok z)
    (hq : ext.query s.m_solver z = .error msg) :
    (Z3CHCInterface.query ext s e).1 = .ok (.ERROR, []) := by
  simp [Z3CHCInterface.query, hz, hq, Z3CHCInterface.queryCatch]

/-- Witness for C2: an engine whose query operation raises. -/
theorem query_engine_raises_witness :
    (Z3CHCInterface.query (sampleExternal (.error "timeout") (.ok sampleAnswer) [])
        sampleSession sampleGoal).1 = .ok (.ERROR, []) :=
  query_engine_raises (sampleExternal (.error "timeout") (.ok sampleAnswer) [])
    sampleSession sampleGoal (.app "R" []) "timeout" rfl rfl

/-- C4 (as stated, refuted): the engine's query operation reports sat and the answer is
printed, then retrieving the engine's answer for counterexample extraction (line 95)
raises, and the call returns ERROR instead of SATISFIABLE. -/
theorem query_sat_extraction_raises_is_error :
    secondAnswerRaises.query sampleSession.m_solver (.app "R" []) = .ok .sat ∧
    secondAnswerRaises.get_answer (sampleSession.m_solver.query (.app "R" [])) =
      .ok sampleAnswer ∧
    secondAnswerRaises.get_answer (sampleSession.m_solver.query (.app "R" [])).get_answer =
      .error "no answer" ∧
    (Z3CHCInterface.query secondAnswerRaises sampleSession sampleGoal).1 = .ok (.ERROR, []) ∧
    ¬ ∃ values, (Z3CHCInterface.query secondAnswerRaises sampleSession sampleGoal).1 =
      .ok (.SATISFIABLE, values) := by
  refine ⟨rfl, rfl, rfl, rfl, ?_⟩
  rintro ⟨values, h⟩
  have h' : (Except.ok (CheckResult.ERROR, ([] : List String)) : Except Exception _) =
      .ok (.SATISFIABLE, values) := h
  simp at h'

/-- C4 (amended): when the engine's query operation reports sat and retrieving the
engine's answer raises an engine exception, at the call made for printing (line 93) or at
the call made for counterexample extraction (line 95), the handler of `query` catches it:
the call returns ERROR together with an empty counterexample, and no exception leaves the
call. -/
theorem query_sat_extraction_raises (ext : External) (s : Z3CHCInterface) (e : Expression)
    (z : Z3Expr)
    (hz : ext.toZ3Expr s.m_z3Interface e = .ok z)
    (hq : ext.query s.m_solver z = .ok .sat)
    (hfail : (∃ msg, ext.get_answer (s.m_solver.query z) = .error msg) ∨
      (∃ msg, ext.get_answer (s.m_solver.query z).get_answer = .error msg)) :
    (Z3CHCInterface.query ext s e).1 = .ok (.ERROR, []) := by
  simp only [Fixedpoint.query, Fixedpoint.get_answer] at hfail
  cases hx : ext.get_answer { s.m_solver with queries := s.m_solver.queries ++ [z] } with
  | error msg =>
    simp [Z3CHCInterface.query, hz, hq, Z3CHCInterface.print, Fixedpoint.query,
      Fixedpoint.get_answer, hx, Z3CHCInterface.queryCatch]
  | ok a =>
    rcases hfail with ⟨msg, hm⟩ | ⟨msg, hm⟩
    · rw [hx] at hm
      cases hm
    · simp [Z3CHCInterface.query, hz, hq, Z3CHCInterface.print, Fixedpoint.query,
        Fixedpoint.get_answer, hx, hm, Z3CHCInterface.queryCatch]

/-- Witness for C4 (amended): an engine whose answer can be printed but not retrieved again
for the extraction, and an engine whose answer cannot be retrieved at all. -/
theorem query_sat_extraction_raises_witness :
    (Z3CHCInterface.query secondAnswerRaises emptySession sampleGoal).1 = .ok (.ERROR, []) ∧
    (Z3CHCInterface.query (sampleExternal (.ok .sat) (.error "no answer") [sampleAnswer])
        sampleSession sampleGoal).1 = .ok (.ERROR, []) :=
  ⟨query_sat_extraction_raises secondAnswerRaises emptySession sampleGoal (.app "R" []) rfl rfl
      (Or.inr ⟨"no answer", rfl⟩),
    query_sat_extraction_raises (sampleExternal (.ok .sat) (.error "no answer") [sampleAnswer])
      sampleSession sampleGoal (.app "R" []) rfl rfl (Or.inl ⟨"no answer", rfl⟩)⟩

/-! ## Rule assertion -/

/-- C3: when the translation succeeds, `addRule` hands exactly one clause to the engine,
tagged with the given label, and nothing else of the engine changes.  With an empty
registry the clause is the translated expression itself; otherwise it is the translated
expression under one universal quantifier whose bound variables are the registry's
variables, each once and in registry order, whatever occurs in the expression. -/
theorem addRule_submits_one_clause (ext : External) (s : Z3CHCInterface) (e : Expression)
    (label : String) (rule : Z3Expr)
    (hz : ext.toZ3Expr s.m_z3Interface e = .ok rule) :
    (s.m_z3Interface.m_constants = [] →
      (Z3CHCInterface.addRule ext s e label).2.m_solver =
        { s.m_solver with rules := s.m_solver.rules ++ [(rule, label)] }) ∧
    (s.m_z3Interface.m_constants ≠ [] →
      (Z3CHCInterface.addRule ext s e label).2.m_solver =
        { s.m_solver with rules := s.m_solver.rules ++
            [(Z3Expr.forall_ (s.m_z3Interface.m_constants.map Prod.snd) rule, label)] }) := by
  constructor
  · intro hempty
    simp only [Z3CHCInterface.addRule, hz, Z3CHCInterface.print, hempty, List.isEmpty_nil,
      if_true, Fixedpoint.add_rule]
    cases ext.add_rule s.m_solver rule label <;> rfl
  · intro hne
    have hfalse : s.m_z3Interface.m_constants.isEmpty = false := by
      cases hc : s.m_z3Interface.m_constants with
      | nil => exact absurd hc hne
      | cons a l => rfl
    simp only [Z3CHCInterface.addRule, hz, Z3CHCInterface.print, hfalse, Bool.false_eq_true,
      if_false, Fixedpoint.add_rule]
    cases ext.add_rule s.m_solver
      (Z3Expr.forall_ (List.map (fun var => var.2) s.m_z3Interface.m_constants) rule) label <;> rfl

/-- Witness for C3: a rule asserted in a session whose registry holds `x` and `y`. -/
theorem addRule_submits_one_clause_witness :
    (Z3CHCInterface.addRule (sampleExternal (.ok .sat) (.ok sampleAnswer) [])
        sampleSession sampleGoal "rule_1").2.m_solver.rules =
      [(Z3Expr.forall_ [.constant "x" ⟨0⟩, .constant "y" ⟨1⟩] (.app "R" []), "rule_1")] :=
  congrArg Fixedpoint.rules
    ((addRule_submits_one_clause (sampleExternal (.ok .sat) (.ok sampleAnswer) [])
      sampleSession sampleGoal "rule_1" (.app "R" []) rfl).2 (by simp [sampleSession]))

/-- C7: when the translation of the rule fails, `addRule` fails with that same error and
leaves the session as it was: nothing is handed to the engine. -/
theorem addRule_translation_error (ext : External) (s : Z3CHCInterface) (e : Expression)
    (label : String) (err : Exception)
    (hz : ext.toZ3Expr s.m_z3Interface e = .error err) :
    Z3CHCInterface.addRule ext s e label = (.error err, s) := by
  simp [Z3CHCInterface.addRule, hz]

/-- Witness for C7: the sample translator rejects the expression with an empty name. -/
theorem addRule_translation_error_witness :
    Z3CHCInterface.addRule (sampleExternal (.ok .sat) (.ok sampleAnswer) [])
        sampleSession (.mk "" [] none) "rule_1" =
      (.error (.InternalCompilerError ""), sampleSession) :=
  addRule_translation_error (sampleExternal (.ok .sat) (.ok sampleAnswer) [])
    sampleSession (.mk "" [] none) "rule_1" (.InternalCompilerError "") rfl

/-! ## Declaration and registration -/

/-- A key has no binding exactly when `List.lookup` finds nothing. -/
theorem lookup_eq_none_iff_not_mem_keys {α : Type} (k : String) (l : List (String × α)) :
    l.lookup k = none ↔ k ∉ l.map Prod.fst := by
  induction l with
  | nil => simp
  | cons a l ih =>
    obtain ⟨k', v⟩ := a
    by_cases hk : k = k'
    · subst hk
      simp [List.lookup]
    · have hb : (k == k') = false := by simpa using hk
      simp [List.lookup, hb, ih, hk]

/-- A binding found by `List.lookup` is in the list. -/
theorem mem_of_lookup_eq_some {α : Type} (k : String) (v : α) (l : List (String × α))
    (h : l.lookup k = some v) : (k, v) ∈ l := by
  induction l with
  | nil => simp at h
  | cons a l ih =>
    obtain ⟨k', v'⟩ := a
    by_cases hk : k = k'
    · subst hk
      simp [List.lookup] at h
      simp [h]
    · have hb : (k == k') = false := by simpa using hk
      simp [List.lookup, hb] at h
      exact List.mem_cons_of_mem _ (ih h)

/-- C5: `registerRelation` fails exactly when the expression's name has no entry in the
function-symbol table of the expression model.  When it fails the session, and with it
the engine's registered relations, is unchanged; when the table binds the name to a
symbol, the call succeeds and registers that symbol and nothing else. -/
theorem registerRelation_fails_iff (s : Z3CHCInterface) (e : Expression) :
    ((∃ err, (s.registerRelation e).1 = .error err) ↔
      e.name ∉ s.m_z3Interface.m_functions.map Prod.fst) ∧
    ((∃ err, (s.registerRelation e).1 = .error err) → (s.registerRelation e).2 = s) ∧
    (∀ f, s.m_z3Interface.m_functions.lookup e.name = some f →
      (e.name, f) ∈ s.m_z3Interface.m_functions ∧
      (s.registerRelation e).1 = .ok () ∧
      (s.registerRelation e).2 =
        { s with m_solver :=
            { s.m_solver with relations := s.m_solver.relations ++ [f] } }) := by
  rw [← lookup_eq_none_iff_not_mem_keys]
  cases h : s.m_z3Interface.m_functions.lookup e.name with
  | none => simp [Z3CHCInterface.registerRelation, h]
  | some f =>
    refine ⟨?_, ?_, ?_⟩
    · simp [Z3CHCInterface.registerRelation, h]
    · simp [Z3CHCInterface.registerRelation, h]
    · intro f' hf'
      cases hf'
      exact ⟨mem_of_lookup_eq_some _ _ _ h,
        by simp [Z3CHCInterface.registerRelation, h],
        by simp [Z3CHCInterface.registerRelation, h, Fixedpoint.register_relation]⟩

/-- Witness for C5: the relation `R` of the sample session is registered, and the name `Q`,
which the table does not bind, is refused with the session unchanged. -/
theorem registerRelation_fails_iff_witness :
    (sampleSession.registerRelation sampleGoal).2.m_solver.relations =
      [{ name := "R", domain := [⟨0⟩], range := ⟨1⟩ }] ∧
    (sampleSession.registerRelation (.mk "Q" [] none)).2 = sampleSession :=
  ⟨congrArg (fun t => t.m_solver.relations)
      ((registerRelation_fails_iff sampleSession sampleGoal).2.2
        { name := "R", domain := [⟨0⟩], range := ⟨1⟩ } rfl).2.2,
    (registerRelation_fails_iff sampleSession (.mk "Q" [] none)).2.1 ⟨.out_of_range, rfl⟩⟩

/-- The binding just inserted is in the map. -/
theorem mapInsert_mem_self {α : Type} (k : String) (v : α) (l : List (String × α)) :
    (k, v) ∈ mapInsert k v l := by
  induction l with
  | nil => simp [mapInsert]
  | cons a l ih =>
    obtain ⟨k', v'⟩ := a
    simp only [mapInsert]
    split
    · simp
    · split
      · simp
      · exact List.mem_cons_of_mem _ ih

/-- Bindings of other keys survive an insertion. -/
theorem mapInsert_mem_of_ne {α : Type} (k : String) (v : α) (l : List (String × α))
    (k' : String) (v' : α) (hmem : (k', v') ∈ l) (hne : k' ≠ k) :
    (k', v') ∈ mapInsert k v l := by
  induction l with
  | nil => simp at hmem
  | cons a l ih =>
    obtain ⟨k0, v0⟩ := a
    simp only [mapInsert]
    split
    · exact List.mem_cons_of_mem _ hmem
    · split
      · rename_i hk
        rcases List.mem_cons.mp hmem with h | h
        · have : k' = k0 := congrArg Prod.fst h
          exact absurd (this.trans hk.symm) hne
        · exact List.mem_cons_of_mem _ h
      · rcases List.mem_cons.mp hmem with h | h
        · rw [h]
          exact List.mem_cons_self _ _
        · exact List.mem_cons_of_mem _ (ih h)

/-- The function `parseCounterexample` only writes to the console, and the model it
returns is empty. -/
theorem parseCounterexample_frame (ext : External) (s : Z3CHCInterface) (cex : Z3Expr) :
    (Z3CHCInterface.parseCounterexample ext s cex).1 = [] ∧
    (Z3CHCInterface.parseCounterexample ext s cex).2.m_z3Interface = s.m_z3Interface ∧
    (Z3CHCInterface.parseCounterexample ext s cex).2.m_solver = s.m_solver ∧
    (Z3CHCInterface.parseCounterexample ext s cex).2.globalParams = s.globalParams := by
  simp [Z3CHCInterface.parseCounterexample, Z3CHCInterface.print]

/-- The function `query` leaves the registry, the parameters of the engine and the global
parameters as they were. -/
theorem query_frame (ext : External) (s : Z3CHCInterface) (e : Expression) :
    (Z3CHCInterface.query ext s e).2.m_z3Interface = s.m_z3Interface ∧
    (Z3CHCInterface.query ext s e).2.m_solver.params = s.m_solver.params ∧
    (Z3CHCInterface.query ext s e).2.globalParams = s.globalParams := by
  unfold Z3CHCInterface.query
  simp only
  split
  · simp [Z3CHCInterface.queryCatch, Z3CHCInterface.print]
  · simp
  · split
    · simp [Z3CHCInterface.queryCatch, Z3CHCInterface.print, Fixedpoint.query]
    · split
      · simp [Z3CHCInterface.queryCatch, Z3CHCInterface.print, Fixedpoint.query,
          Fixedpoint.get_answer]
      · split <;>
          simp [Z3CHCInterface.queryCatch, Z3CHCInterface.print, Fixedpoint.query,
            Fixedpoint.get_answer, Z3CHCInterface.parseCounterexample]
    · split <;>
        simp [Z3CHCInterface.queryCatch, Z3CHCInterface.print, Fixedpoint.query,
          Fixedpoint.get_answer]
    · simp [Z3CHCInterface.print, Fixedpoint.query]

/-- The function `addRule` leaves the registry, the parameters of the engine and the
global parameters as they were. -/
theorem addRule_frame (ext : External) (s : Z3CHCInterface) (e : Expression) (label : String) :
    (Z3CHCInterface.addRule ext s e label).2.m_z3Interface = s.m_z3Interface ∧
    (Z3CHCInterface.addRule ext s e label).2.m_solver.params = s.m_solver.params ∧
    (Z3CHCInterface.addRule ext s e label).2.globalParams = s.globalParams := by
  unfold Z3CHCInterface.addRule
  split
  · simp
  · simp only
    split <;> split <;> simp [Z3CHCInterface.print, Fixedpoint.add_rule]

/-- No call changes the parameters of the engine or the global parameters. -/
theorem Call.run_params (ext : External) (s : Z3CHCInterface) (c : Call) :
    (c.run ext s).m_solver.params = s.m_solver.params ∧
    (c.run ext s).globalParams = s.globalParams := by
  cases c with
  | declareVariable name sort =>
    cases sort <;> simp [Call.run, Z3CHCInterface.declareVariable]
  | registerRelation expr =>
    simp only [Call.run, Z3CHCInterface.registerRelation]
    split <;> simp [Fixedpoint.register_relation]
  | addRule expr name =>
    exact ⟨(addRule_frame ext s expr name).2.1, (addRule_frame ext s expr name).2.2⟩
  | query expr =>
    exact ⟨(query_frame ext s expr).2.1, (query_frame ext s expr).2.2⟩

/-- No sequence of calls changes the parameters of the engine or the global parameters. -/
theorem runCalls_params (ext : External) (calls : List Call) (s : Z3CHCInterface) :
    (runCalls ext s calls).m_solver.params = s.m_solver.params ∧
    (runCalls ext s calls).globalParams = s.globalParams := by
  induction calls generalizing s with
  | nil => exact ⟨rfl, rfl⟩
  | cons c calls ih =>
    have h1 := ih (c.run ext s)
    have h2 := Call.run_params ext s c
    simp only [runCalls, List.foldl_cons] at h1 ⊢
    exact ⟨h1.1.trans h2.1, h1.2.trans h2.2⟩

/-- A name bound in the registry stays bound through any call. -/
theorem Call.run_declares (ext : External) (s : Z3CHCInterface) (c : Call) (name : String)
    (h : ∃ sort, (name, Z3Expr.constant name sort) ∈ s.m_z3Interface.m_constants) :
    ∃ sort, (name, Z3Expr.constant name sort) ∈ (c.run ext s).m_z3Interface.m_constants := by
  cases c with
  | declareVariable name' sort =>
    cases sort with
    | none => exact h
    | some sort =>
      obtain ⟨sort0, h0⟩ := h
      by_cases hn : name = name'
      · subst hn
        exact ⟨sort, mapInsert_mem_self _ _ _⟩
      · exact ⟨sort0, mapInsert_mem_of_ne _ _ _ _ _ h0 hn⟩
  | registerRelation expr =>
    simp only [Call.run, Z3CHCInterface.registerRelation]
    split <;> exact h
  | addRule expr label =>
    obtain ⟨sort0, h0⟩ := h
    refine ⟨sort0, ?_⟩
    simp only [Call.run]
    rw [(addRule_frame ext s expr label).1]
    exact h0
  | query expr =>
    obtain ⟨sort0, h0⟩ := h
    refine ⟨sort0, ?_⟩
    simp only [Call.run]
    rw [(query_frame ext s expr).1]
    exact h0

/-- A name bound in the registry stays bound through any sequence of calls. -/
theorem runCalls_declares (ext : External) (calls : List Call) (s : Z3CHCInterface)
    (name : String)
    (h : ∃ sort, (name, Z3Expr.constant name sort) ∈ s.m_z3Interface.m_constants) :
    ∃ sort, (name, Z3Expr.constant name sort) ∈
      (runCalls ext s calls).m_z3Interface.m_constants := by
  induction calls generalizing s with
  | nil => exact h
  | cons c calls ih => exact ih (c.run ext s) (Call.run_declares ext s c name h)

/-- A binding of `name` stays in the registry through a call that does not declare
`name` again. -/
theorem Call.run_keeps_binding (ext : External) (s : Z3CHCInterface) (c : Call) (name : String)
    (v : Z3Expr) (hc : ∀ sort1, c ≠ Call.declareVariable name (some sort1))
    (h : (name, v) ∈ s.m_z3Interface.m_constants) :
    (name, v) ∈ (c.run ext s).m_z3Interface.m_constants := by
  cases c with
  | declareVariable name' sort =>
    cases sort with
    | none => exact h
    | some sort =>
      have hn : name ≠ name' := by
        intro hn
        subst hn
        exact hc sort rfl
      exact mapInsert_mem_of_ne _ _ _ _ _ h hn
  | registerRelation expr =>
    simp only [Call.run, Z3CHCInterface.registerRelation]
    split <;> exact h
  | addRule expr label =>
    simp only [Call.run]
    rw [(addRule_frame ext s expr label).1]
    exact h
  | query expr =>
    simp only [Call.run]
    rw [(query_frame ext s expr).1]
    exact h

/-- A binding of `name` stays in the registry through calls that do not declare `name`
again. -/
theorem runCalls_keeps_binding (ext : External) (calls : List Call) (s : Z3CHCInterface)
    (name : String) (v : Z3Expr)
    (hc : ∀ sort1, Call.declareVariable name (some sort1) ∉ calls)
    (h : (name, v) ∈ s.m_z3Interface.m_constants) :
    (name, v) ∈ (runCalls ext s calls).m_z3Interface.m_constants := by
  induction calls generalizing s with
  | nil => exact h
  | cons c calls ih =>
    refine ih (c.run ext s) (fun sort1 hmem => hc sort1 (List.mem_cons_of_mem _ hmem)) ?_
    refine Call.run_keeps_binding ext s c name v (fun sort1 heq => hc sort1 ?_) h
    rw [heq]
    exact List.mem_cons_self _ _

/-- With a registry that is not empty, `addRule` hands the engine the translated rule under
a quantifier over the registry's variables. -/
theorem addRule_rules_of_ne_nil (ext : External) (s : Z3CHCInterface) (e : Expression)
    (label : String) (rule : Z3Expr)
    (hz : ext.toZ3Expr s.m_z3Interface e = .ok rule)
    (hne : s.m_z3Interface.m_constants ≠ []) :
    (Z3CHCInterface.addRule ext s e label).2.m_solver.rules = s.m_solver.rules ++
      [(Z3Expr.forall_ (s.m_z3Interface.m_constants.map Prod.snd) rule, label)] := by
  have hfalse : s.m_z3Interface.m_constants.isEmpty = false := by
    cases hc : s.m_z3Interface.m_constants with
    | nil => exact absurd hc hne
    | cons a l => rfl
  simp only [Z3CHCInterface.addRule, hz, Z3CHCInterface.print, hfalse, Bool.false_eq_true,
    if_false, Fixedpoint.add_rule]
  cases ext.add_rule s.m_solver
    (Z3Expr.forall_ (List.map (fun var => var.2) s.m_z3Interface.m_constants) rule) label <;> rfl

/-- C6: `declareVariable` with a null sort fails and leaves the session, and so the
registry, unchanged.  With a valid sort it succeeds and its only effect is the
registry's declaration of exactly that name and sort, which binds the name to that
variable; from then on, after any further calls, every `addRule` whose translation succeeds
quantifies its clause over the registry's variables, among them a constant of that name,
which is the declared variable itself as long as the name has not been declared again. -/
theorem declareVariable_null_fails_valid_forwards (ext : External) (s : Z3CHCInterface)
    (name : String) :
    s.declareVariable name none = (.error (.InternalCompilerError ""), s) ∧
    (∀ sort : SMTSort,
      s.declareVariable name (some sort) =
        (.ok (), { s with m_z3Interface := s.m_z3Interface.declareVariable name sort }) ∧
      (name, Z3Expr.constant name sort) ∈
        (s.declareVariable name (some sort)).2.m_z3Interface.m_constants) ∧
    (∀ (sort : SMTSort) (calls : List Call) (e : Expression) (label : String) (rule : Z3Expr),
      ext.toZ3Expr (runCalls ext (s.declareVariable name (some sort)).2 calls).m_z3Interface e =
        .ok rule →
      (Z3CHCInterface.addRule ext (runCalls ext (s.declareVariable name (some sort)).2 calls)
          e label).2.m_solver.rules =
        (runCalls ext (s.declareVariable name (some sort)).2 calls).m_solver.rules ++
          [(Z3Expr.forall_
            ((runCalls ext (s.declareVariable name (some sort)).2 calls).m_z3Interface.m_constants.map
              Prod.snd) rule, label)] ∧
      (∃ sort', Z3Expr.constant name sort' ∈
        (runCalls ext (s.declareVariable name (some sort)).2 calls).m_z3Interface.m_constants.map
          Prod.snd) ∧
      ((∀ sort1, Call.declareVariable name (some sort1) ∉ calls) →
        Z3Expr.constant name sort ∈
          (runCalls ext (s.declareVariable name (some sort)).2 calls).m_z3Interface.m_constants.map
            Prod.snd)) := by
  have hbind : ∀ sort : SMTSort, (name, Z3Expr.constant name sort) ∈
      (s.declareVariable name (some sort)).2.m_z3Interface.m_constants :=
    fun sort => mapInsert_mem_self _ _ _
  refine ⟨rfl, fun sort => ⟨rfl, hbind sort⟩, ?_⟩
  intro sort calls e label rule hz
  obtain ⟨sort', hmem⟩ := runCalls_declares ext calls _ name ⟨sort, hbind sort⟩
  refine ⟨addRule_rules_of_ne_nil ext _ e label rule hz (List.ne_nil_of_mem hmem), ⟨sort', ?_⟩, ?_⟩
  · exact List.mem_map.mpr ⟨(name, Z3Expr.constant name sort'), hmem, rfl⟩
  · intro hc
    exact List.mem_map.mpr ⟨(name, Z3Expr.constant name sort),
      runCalls_keeps_binding ext calls _ name _ hc (hbind sort), rfl⟩

/-- Witness for C6: after `w` is declared and a relation registered, the clause of the next
rule is quantified over `w`, `x` and `y`. -/
theorem declareVariable_null_fails_valid_forwards_witness :
    (Z3CHCInterface.addRule (sampleExternal (.ok .sat) (.ok sampleAnswer) [])
        (runCalls (sampleExternal (.ok .sat) (.ok sampleAnswer) [])
          (sampleSession.declareVariable "w" (some ⟨3⟩)).2 [.registerRelation sampleGoal])
        sampleGoal "rule_1").2.m_solver.rules =
      [] ++ [(Z3Expr.forall_ [.constant "w" ⟨3⟩, .constant "x" ⟨0⟩, .constant "y" ⟨1⟩]
        (.app "R" []), "rule_1")] :=
  ((declareVariable_null_fails_valid_forwards (sampleExternal (.ok .sat) (.ok sampleAnswer) [])
    sampleSession "w").2.2 ⟨3⟩ [.registerRelation sampleGoal] sampleGoal "rule_1" (.app "R" [])
    rfl).1

/-! ## The solving configuration -/

/-- C8: in every session state reached from a successful construction by any sequence of
`declareVariable`, `registerRelation`, `addRule` and `query` calls, the resource limit is
the one set on the global parameters, the engine's parameters enable the quantified lemma
generalizer and disable model-based quantifier instantiation, grounding of proof
obligations, slicing, linear inlining and eager inlining, and both parameter sets are
those left by the constructor. -/
theorem configuration_fixed (ext : External) (g : List (String × ParamValue))
    (console : List String) (s0 : Z3CHCInterface) (calls : List Call)
    (h : Z3CHCInterface.ctor ext g console = .ok s0) :
    (runCalls ext s0 calls).globalParams.lookup "rlimit" =
      some (ParamValue.int ext.resourceLimit) ∧
    (runCalls ext s0 calls).m_solver.params.lookup "fp.spacer.q3.use_qgen" = some true ∧
    (runCalls ext s0 calls).m_solver.params.lookup "fp.spacer.mbqi" = some false ∧
    (runCalls ext s0 calls).m_solver.params.lookup "fp.spacer.ground_pobs" = some false ∧
    (runCalls ext s0 calls).m_solver.params.lookup "fp.xform.slice" = some false ∧
    (runCalls ext s0 calls).m_solver.params.lookup "fp.xform.inline_linear" = some false ∧
    (runCalls ext s0 calls).m_solver.params.lookup "fp.xform.inline_eager" = some false ∧
    (runCalls ext s0 calls).globalParams = s0.globalParams ∧
    (runCalls ext s0 calls).m_solver.params = s0.m_solver.params := by
  obtain ⟨hp, hg⟩ := runCalls_params ext calls s0
  rw [hp, hg]
  unfold Z3CHCInterface.ctor at h
  cases hs : ext.set spacerParams with
  | some msg => simp [hs] at h
  | none =>
    simp only [hs, Except.ok.injEq] at h
    subst h
    refine ⟨?_, ?_, ?_, ?_, ?_, ?_, ?_, rfl, rfl⟩
    · simp [set_param, List.lookup]
    all_goals rfl

/-- Witness for C8: a session constructed with the sample engine, then used for a
declaration, a registration, a rule and a query. -/
theorem configuration_fixed_witness :
    (runCalls (sampleExternal (.ok .sat) (.ok sampleAnswer) [])
        { globalParams := [("rlimit", .int 12500000), ("rewriter.pull_cheap_ite", .bool true)]
          m_z3Interface := Z3Interface.fresh
          m_solver := Fixedpoint.fresh.set spacerParams
          cout := [] }
        [.declareVariable "x" (some ⟨0⟩), .registerRelation sampleGoal,
          .addRule sampleGoal "rule_1", .query sampleGoal]).m_solver.params.lookup
      "fp.xform.slice" = some false :=
  (configuration_fixed (sampleExternal (.ok .sat) (.ok sampleAnswer) []) [] [] _
    [.declareVariable "x" (some ⟨0⟩), .registerRelation sampleGoal,
      .addRule sampleGoal "rule_1", .query sampleGoal] rfl).2.2.2.2.1

/-! ## Counterexample extraction -/

/-- C9 (as stated, refuted): for an answer with a conjunct `summary_f(1)`, which is also
the trace the engine reports, the decoding of the specification yields the argument "1"
while `parseCounterexample` returns the empty sequence. -/
theorem parseCounterexample_skips_summary :
    specSummaryDecoding headSymbol sampleAnswer = ["1"] ∧
    (Z3CHCInterface.parseCounterexample
        (sampleExternal (.ok .sat) (.ok sampleAnswer) [sampleAnswer])
        sampleSession sampleAnswer).1 = [] ∧
    (Z3CHCInterface.parseCounterexample
        (sampleExternal (.ok .sat) (.ok sampleAnswer) [sampleAnswer])
        sampleSession sampleAnswer).1 ≠ specSummaryDecoding headSymbol sampleAnswer := by
  refine ⟨rfl, rfl, ?_⟩
  intro h
  have h' : ([] : List String) = ["1"] := h
  simp at h'

/-- C9 (amended): for every answer handed to counterexample extraction, in every session
state and whatever trace the engine reports, `parseCounterexample` returns, and what it
returns is the empty sequence: conjuncts contribute nothing, with or without the
"summary" marker. -/
theorem parseCounterexample_returns_empty (ext : External) (s : Z3CHCInterface)
    (cex : Z3Expr) :
    (Z3CHCInterface.parseCounterexample ext s cex).1 = [] := by
  simp [Z3CHCInterface.parseCounterexample]

/-- Witness for C9 (amended): the answer with a conjunct marked "summary". -/
theorem parseCounterexample_returns_empty_witness :
    (Z3CHCInterface.parseCounterexample
        (sampleExternal (.ok .sat) (.ok sampleAnswer) [sampleAnswer])
        emptySession sampleAnswer).1 = [] :=
  parseCounterexample_returns_empty
    (sampleExternal (.ok .sat) (.ok sampleAnswer) [sampleAnswer])
    emptySession sampleAnswer

/-- C10: whatever the goal, the session state and the engine's outcome, the counterexample
of a pair returned by `query` is the empty sequence; and `query` does return such a pair
whenever the translation of the goal succeeds, also when the engine raises. -/
theorem query_counterexample_empty (ext : External) (s : Z3CHCInterface) (e : Expression) :
    (∀ p, (Z3CHCInterface.query ext s e).1 = .ok p → p.2 = []) ∧
    (∀ z, ext.toZ3Expr s.m_z3Interface e = .ok z →
      ∃ result, (Z3CHCInterface.query ext s e).1 = .ok (result, [])) := by
  have main : (∃ err, ext.toZ3Expr s.m_z3Interface e = .error err ∧
        (Z3CHCInterface.query ext s e).1 = .error err) ∨
      ∃ result, (Z3CHCInterface.query ext s e).1 = .ok (result, []) := by
    unfold Z3CHCInterface.query
    simp only
    split
    · exact Or.inr ⟨_, rfl⟩
    · rename_i err _ herr
      exact Or.inl ⟨err, herr, rfl⟩
    · split
      · exact Or.inr ⟨_, rfl⟩
      · split
        · exact Or.inr ⟨_, rfl⟩
        · split
          · exact Or.inr ⟨_, rfl⟩
          · rename_i cex _
            exact Or.inr ⟨.SATISFIABLE,
              congrArg (fun values => Except.ok (CheckResult.SATISFIABLE, values))
                (parseCounterexample_frame ext _ cex).1⟩
      · split <;> exact Or.inr ⟨_, rfl⟩
      · exact Or.inr ⟨_, rfl⟩
  constructor
  · intro p hp
    rcases main with ⟨err, _, herr⟩ | ⟨result, hres⟩
    · rw [herr] at hp
      cases hp
    · rw [hres] at hp
      cases hp
      rfl
  · intro z hz
    rcases main with ⟨err, herr, _⟩ | h
    · rw [hz] at herr
      cases herr
    · exact h

/-- Witness for C10: a SATISFIABLE result carries an empty counterexample although the
answer has a conjunct marked "summary". -/
theorem query_counterexample_empty_witness :
    ∃ result, (Z3CHCInterface.query
        (sampleExternal (.ok .sat) (.ok sampleAnswer) [sampleAnswer])
        sampleSession sampleGoal).1 = .ok (result, []) :=
  (query_counterexample_empty (sampleExternal (.ok .sat) (.ok sampleAnswer) [sampleAnswer])
    sampleSession sampleGoal).2 (.app "R" []) rfl

end Solidity
